import Mathlib

/-
Verification of the Ticket-Weather-Report system.

This file gives a shallow embedding, in Lean 4, of the parts of the code
that the checked claims are about:

  * src/models.py            -- domain model (WeatherStatus, ErrorTypes,
                                WeatherData, Airport)
  * src/cache_manager.py     -- WeatherCache (in-memory LRU/TTL cache)
  * src/weather_service.py   -- WeatherAPIClient.fetch_weather,
                                fetch_weather_with_retry, _classify_http_error,
                                WeatherService.get_weather_for_airports
  * src/report_generator.py  -- WeatherReportGenerator.generate_statistics,
                                generate_terminal_report (its parameter list)
  * src/data_processor.py    -- FlightDataProcessor.extract_unique_airports
  * src/cli.py               -- the keyword arguments of the report call in
                                process_weather_report

Python floats are modelled as rationals, wall-clock times (time.time()) as
integers, dictionaries as association lists in insertion order (Python
dicts preserve insertion order and have unique keys), and exceptions as
Except / explicit outcome types.
-/

/-! ## Domain model (src/models.py) -/

/-- `WeatherStatus` enumeration from src/models.py. -/
inductive WeatherStatus where
  | success
  | error
  | not_available
  | cached
  deriving DecidableEq, Repr

/-- `ErrorTypes` enumeration from src/models.py. -/
inductive ErrorTypes where
  | network_error
  | api_error
  | timeout_error
  | rate_limit_error
  | authentication_error
  | invalid_coordinates
  | unknown_error
  deriving DecidableEq, Repr

/-- `WeatherData` dataclass from src/models.py.  The last three fields carry
the dataclass defaults (`status=WeatherStatus.SUCCESS`, `error_message=None`,
`error_type=None`). -/
structure WeatherData where
  temperature : ℚ
  description : String
  humidity : Int
  wind_speed : ℚ
  timestamp : Int
  status : WeatherStatus := WeatherStatus.success
  error_message : Option String := none
  error_type : Option ErrorTypes := none
  deriving DecidableEq, Repr

/-- `Airport` dataclass from src/models.py. -/
structure Airport where
  iata_code : String
  name : String
  latitude : ℚ
  longitude : ℚ
  deriving DecidableEq, Repr

/-- `Airport.cache_key` from src/models.py:
`f"weather_{self.iata_code}_{self.latitude}_{self.longitude}"`. -/
def Airport.cache_key (a : Airport) : String :=
  "weather_" ++ a.iata_code ++ "_" ++ toString a.latitude ++ "_" ++ toString a.longitude

/-! ## HTTP error classification (src/weather_service.py, `_classify_http_error`) -/

/-- `WeatherAPIClient._classify_http_error` from src/weather_service.py:
maps an HTTP status code to an error type together with a retry decision. -/
def classify_http_error (status_code : Nat) : ErrorTypes × Bool :=
  if status_code = 401 then
    (ErrorTypes.authentication_error, false)
  else if status_code = 429 then
    (ErrorTypes.rate_limit_error, true)
  else if 500 ≤ status_code ∧ status_code < 600 then
    (ErrorTypes.api_error, true)
  else if status_code = 400 then
    (ErrorTypes.invalid_coordinates, false)
  else
    (ErrorTypes.api_error, true)

/-! ## Theorems for C8 and C10 -/

/-- C8: `_classify_http_error` returns 401 → AUTHENTICATION_ERROR/no-retry,
429 → RATE_LIMIT_ERROR/retry, any status in [500, 600) → API_ERROR/retry,
400 → INVALID_COORDINATES/no-retry, and every other status → API_ERROR/retry. -/
theorem claim_C8_classify_http_error :
    classify_http_error 401 = (ErrorTypes.authentication_error, false) ∧
    classify_http_error 429 = (ErrorTypes.rate_limit_error, true) ∧
    (∀ s : Nat, 500 ≤ s → s < 600 → classify_http_error s = (ErrorTypes.api_error, true)) ∧
    classify_http_error 400 = (ErrorTypes.invalid_coordinates, false) ∧
    (∀ s : Nat, s ≠ 401 → s ≠ 429 → s ≠ 400 → ¬ (500 ≤ s ∧ s < 600) →
      classify_http_error s = (ErrorTypes.api_error, true)) := by
  refine ⟨by decide, by decide, ?_, by decide, ?_⟩
  · intro s h1 h2
    unfold classify_http_error
    split_ifs <;> first | rfl | omega
  · intro s h1 h2 h3 h4
    unfold classify_http_error
    split_ifs <;> first | rfl | omega

/-- Witness for C8 at the concrete status codes 503 (a 5xx) and 418 (an
"every other status" code). -/
theorem claim_C8_classify_http_error_witness :
    classify_http_error 503 = (ErrorTypes.api_error, true) ∧
    classify_http_error 418 = (ErrorTypes.api_error, true) :=
  ⟨claim_C8_classify_http_error.2.2.1 503 (by decide) (by decide),
   claim_C8_classify_http_error.2.2.2.2 418 (by decide) (by decide) (by decide) (by decide)⟩

/-- C10: constructing a `WeatherData` without an explicit status yields
status SUCCESS, and `error_message`/`error_type` default to absent. -/
theorem claim_C10_weatherdata_defaults (t : ℚ) (d : String) (h : Int) (w : ℚ) (ts : Int) :
    ({ temperature := t, description := d, humidity := h, wind_speed := w,
       timestamp := ts } : WeatherData).status = WeatherStatus.success ∧
    ({ temperature := t, description := d, humidity := h, wind_speed := w,
       timestamp := ts } : WeatherData).error_message = none ∧
    ({ temperature := t, description := d, humidity := h, wind_speed := w,
       timestamp := ts } : WeatherData).error_type = none :=
  ⟨rfl, rfl, rfl⟩

/-! ## In-memory weather cache (src/cache_manager.py, class WeatherCache)

The Python backing store is an `OrderedDict` mapping keys to
`(WeatherData, timestamp)` pairs.  It is modelled as a list of entries in
recency order (head = least recently used, tail = most recently used).  A
dict holds at most one entry per key, so deleting a key (`del`,
`move_to_end` re-insertion) is modelled by filtering out every entry with
that key, which coincides with single-entry deletion on the unique-key
states a dict can reach. -/

/-- One cache slot: the stored `WeatherData` together with the
`time.time()` value recorded by `set`. -/
structure CacheEntry where
  key : String
  data : WeatherData
  ts : Int
  deriving DecidableEq, Repr

/-- State of a `WeatherCache` instance (src/cache_manager.py):
`default_ttl`, `max_size`, the ordered backing map and the access counter. -/
structure WeatherCache where
  default_ttl : Int
  max_size : Nat
  entries : List CacheEntry
  access_count : Nat
  deriving DecidableEq, Repr

/-- `WeatherCache.__init__`: empty backing map, zero accesses. -/
def WeatherCache.init (default_ttl : Int) (max_size : Nat) : WeatherCache :=
  { default_ttl := default_ttl, max_size := max_size, entries := [], access_count := 0 }

/-- `WeatherCache.is_expired`: true if the key is absent, or if
`current_time - timestamp > self.default_ttl`.  `now` stands for
`time.time()`. -/
def WeatherCache.is_expired (c : WeatherCache) (now : Int) (key : String) : Bool :=
  match c.entries.find? (fun e => e.key == key) with
  | none => true
  | some e => decide (now - e.ts > c.default_ttl)

/-- `WeatherCache.cleanup_expired`: removes every expired entry and returns
the new state together with the number of entries removed.  (The Python
code collects `expired_keys` via `is_expired`, which on the dict's
unique-key states is the entry's own timestamp check.) -/
def WeatherCache.cleanup_expired (c : WeatherCache) (now : Int) : WeatherCache × Nat :=
  let kept := c.entries.filter (fun e => !(decide (now - e.ts > c.default_ttl)))
  ({ c with entries := kept }, c.entries.length - kept.length)

/-- `WeatherCache._periodic_cleanup`: runs `cleanup_expired`; the
`gc.collect()` hint has no observable effect on the cache state. -/
def WeatherCache.periodic_cleanup (c : WeatherCache) (now : Int) : WeatherCache :=
  (c.cleanup_expired now).1

/-- `WeatherCache._evict_lru`: removes `max(1, max_size // 10)` entries from
the least-recently-used end (the `popitem(last=False)` loop is guarded by
non-emptiness, which `List.drop` reproduces). -/
def WeatherCache.evict_lru (c : WeatherCache) : WeatherCache :=
  let evict_count := max 1 (c.max_size / 10)
  { c with entries := c.entries.drop evict_count }

/-- The part of `WeatherCache.get` after the access counting and periodic
sweep: look the key up; an expired hit is deleted, a live hit is moved to
the most-recently-used position and returned as a fresh copy with `status`
forced to `CACHED`. -/
def WeatherCache.lookup_step (c2 : WeatherCache) (now : Int) (key : String) :
    Option WeatherData × WeatherCache :=
  match c2.entries.find? (fun e => e.key == key) with
  | none => (none, c2)
  | some e =>
    if c2.is_expired now key then
      (none, { c2 with entries := c2.entries.filter (fun x => !(x.key == key)) })
    else
      let cached_data : WeatherData :=
        { temperature := e.data.temperature
          description := e.data.description
          humidity := e.data.humidity
          wind_speed := e.data.wind_speed
          timestamp := e.data.timestamp
          status := WeatherStatus.cached
          error_message := e.data.error_message
          error_type := e.data.error_type }
      (some cached_data,
       { c2 with entries := c2.entries.filter (fun x => !(x.key == key)) ++ [e] })

/-- `WeatherCache.get`: counts the access, runs the periodic sweep on every
100th access, then performs the lookup step above. -/
def WeatherCache.get (c : WeatherCache) (now : Int) (key : String) :
    Option WeatherData × WeatherCache :=
  let c1 : WeatherCache := { c with access_count := c.access_count + 1 }
  let c2 : WeatherCache :=
    if c1.access_count % 100 = 0 then c1.periodic_cleanup now else c1
  c2.lookup_step now key

/-- `WeatherCache.set`: the per-entry `ttl` argument is normalised against
the default but never stored (faithful to the source, where the local
`ttl` is dead after the normalisation).  An existing key is overwritten
and moved to the most-recently-used position; a new key triggers LRU
eviction first whenever the map is at or above `max_size`. -/
def WeatherCache.set (c : WeatherCache) (now : Int) (key : String) (data : WeatherData)
    (ttl : Option Int) : WeatherCache :=
  let _normalised_ttl := ttl.getD c.default_ttl
  if c.entries.any (fun e => e.key == key) then
    { c with entries := c.entries.filter (fun x => !(x.key == key)) ++ [⟨key, data, now⟩] }
  else
    let c3 : WeatherCache := if c.max_size ≤ c.entries.length then c.evict_lru else c
    { c3 with entries := c3.entries ++ [⟨key, data, now⟩] }

/-- `WeatherCache.size`. -/
def WeatherCache.size (c : WeatherCache) : Nat :=
  c.entries.length

/-- One client-visible cache operation, each carrying the `time.time()`
value observed when it runs. -/
inductive CacheOp where
  | get (now : Int) (key : String)
  | set (now : Int) (key : String) (data : WeatherData) (ttl : Option Int)
  | cleanup (now : Int)
  deriving Repr

/-- Effect of one operation on the cache state. -/
def WeatherCache.step (c : WeatherCache) : CacheOp → WeatherCache
  | CacheOp.get now key => (c.get now key).2
  | CacheOp.set now key data ttl => c.set now key data ttl
  | CacheOp.cleanup now => (c.cleanup_expired now).1

/-- State after running a sequence of operations on a fresh cache. -/
def WeatherCache.run (default_ttl : Int) (max_size : Nat) (ops : List CacheOp) : WeatherCache :=
  ops.foldl WeatherCache.step (WeatherCache.init default_ttl max_size)

/-! ## Helper lemmas about `List.find?` over the cache's backing list -/

/-- A first match survives a filter that keeps it: filtering only removes
elements, preserves order, and cannot create an earlier match. -/
theorem find_of_filter_keep {α : Type} (p q : α → Bool) (l : List α) (x : α)
    (hf : l.find? p = some x) (hq : q x = true) :
    (l.filter q).find? p = some x := by
  induction l with
  | nil => simp at hf
  | cons a t ih =>
    by_cases hpa : p a = true
    · rw [List.find?_cons_of_pos _ hpa] at hf
      cases hf
      rw [List.filter_cons, if_pos hq, List.find?_cons_of_pos _ hpa]
    · rw [List.find?_cons_of_neg _ hpa] at hf
      rw [List.filter_cons]
      by_cases hqa : q a = true
      · rw [if_pos hqa, List.find?_cons_of_neg _ hpa]
        exact ih hf
      · rw [if_neg hqa]
        exact ih hf

/-- Searching an append whose left part has no match searches the right part. -/
theorem find_append_left_none {α : Type} (p : α → Bool) (l1 l2 : List α)
    (h : l1.find? p = none) : (l1 ++ l2).find? p = l2.find? p := by
  rw [List.find?_append, h, Option.none_or]

/-- After filtering a key out, no entry with that key can be found. -/
theorem find_filter_not_key (l : List CacheEntry) (key : String) :
    (l.filter (fun x => !(x.key == key))).find? (fun e => e.key == key) = none := by
  rw [List.find?_eq_none]
  intro x hx
  rw [List.mem_filter] at hx
  simp only [Bool.not_eq_true'] at hx
  simp [hx.2]

/-- `set` leaves the fresh entry as the one found under its key, whatever
per-entry ttl argument was passed. -/
theorem WeatherCache.set_find (c : WeatherCache) (now : Int) (key : String)
    (data : WeatherData) (ttlArg : Option Int) :
    ((c.set now key data ttlArg).entries.find? (fun e => e.key == key)) =
      some ⟨key, data, now⟩ := by
  unfold WeatherCache.set
  by_cases hany : c.entries.any (fun e => e.key == key) = true
  · simp only [hany, if_true]
    rw [find_append_left_none _ _ _ (find_filter_not_key _ _)]
    simp [List.find?]
  · simp only [hany, if_false, Bool.false_eq_true, if_neg]
    have hnone : ∀ l : List CacheEntry, (∀ x ∈ l, (x.key == key) = false) →
        (l ++ [(⟨key, data, now⟩ : CacheEntry)]).find? (fun e => e.key == key) =
          some ⟨key, data, now⟩ := by
      intro l hl
      rw [find_append_left_none]
      · simp [List.find?]
      · rw [List.find?_eq_none]
        intro x hx
        simp [hl x hx]
    have hall : ∀ x ∈ c.entries, (x.key == key) = false := by
      intro x hx
      by_contra hcon
      exact hany (List.any_eq_true.mpr ⟨x, hx, by simpa using hcon⟩)
    by_cases hsz : c.max_size ≤ c.entries.length
    · simp only [hsz, if_true]
      exact hnone _ (fun x hx => hall x (List.mem_of_mem_drop hx))
    · simp only [hsz, if_false]
      exact hnone _ hall

/-- The lookup step on a live hit: returns the CACHED-status copy and moves
the (unchanged) stored entry to the most-recently-used position. -/
theorem WeatherCache.lookup_step_live (c2 : WeatherCache) (now : Int) (key : String)
    (d : WeatherData) (ts : Int)
    (hf2 : c2.entries.find? (fun e => e.key == key) = some ⟨key, d, ts⟩)
    (hlive : now - ts ≤ c2.default_ttl) :
    c2.lookup_step now key =
      (some { temperature := d.temperature, description := d.description,
              humidity := d.humidity, wind_speed := d.wind_speed,
              timestamp := d.timestamp, status := WeatherStatus.cached,
              error_message := d.error_message, error_type := d.error_type },
       { c2 with entries :=
          c2.entries.filter (fun x => !(x.key == key)) ++ [⟨key, d, ts⟩] }) := by
  have hexp : c2.is_expired now key = false := by
    unfold WeatherCache.is_expired
    rw [hf2]
    simp only [decide_eq_false_iff_not, not_lt]
    exact hlive
  unfold WeatherCache.lookup_step
  rw [hf2, hexp]
  simp

/-- C3: on a non-expired hit of key `k` holding data `d`, `get` returns a
copy of `d` whose every field agrees with `d` except `status`, which is
forced to CACHED regardless of `d`'s stored status; the record stored under
`k` after the call still carries `d` with its original status. -/
theorem claim_C3_cache_get_cached_copy (c : WeatherCache) (now : Int) (key : String)
    (d : WeatherData) (ts : Int)
    (hfind : c.entries.find? (fun e => e.key == key) = some ⟨key, d, ts⟩)
    (hlive : now - ts ≤ c.default_ttl) :
    (c.get now key).1 =
      some { temperature := d.temperature, description := d.description,
             humidity := d.humidity, wind_speed := d.wind_speed,
             timestamp := d.timestamp, status := WeatherStatus.cached,
             error_message := d.error_message, error_type := d.error_type } ∧
    (c.get now key).2.entries.find? (fun e => e.key == key) = some ⟨key, d, ts⟩ := by
  have hget : c.get now key =
      (if (c.access_count + 1) % 100 = 0 then
        ({ c with access_count := c.access_count + 1 } : WeatherCache).periodic_cleanup now
       else
        { c with access_count := c.access_count + 1 }).lookup_step now key := rfl
  by_cases hmod : (c.access_count + 1) % 100 = 0
  · rw [hget, if_pos hmod]
    have hf2 : (({ c with access_count := c.access_count + 1 } :
        WeatherCache).periodic_cleanup now).entries.find? (fun e => e.key == key) =
        some ⟨key, d, ts⟩ := by
      unfold WeatherCache.periodic_cleanup WeatherCache.cleanup_expired
      refine find_of_filter_keep _ _ _ _ hfind ?_
      simp only [Bool.not_eq_true', decide_eq_false_iff_not, not_lt]
      exact hlive
    rw [WeatherCache.lookup_step_live _ now key d ts hf2 hlive]
    constructor
    · rfl
    · rw [find_append_left_none _ _ _ (find_filter_not_key _ _)]
      simp [List.find?]
  · rw [hget, if_neg hmod]
    have hf2 : (({ c with access_count := c.access_count + 1 } :
        WeatherCache).entries.find? (fun e => e.key == key)) = some ⟨key, d, ts⟩ := hfind
    rw [WeatherCache.lookup_step_live _ now key d ts hf2 hlive]
    constructor
    · rfl
    · rw [find_append_left_none _ _ _ (find_filter_not_key _ _)]
      simp [List.find?]

/-- A sample stored observation used by the concrete witnesses. -/
def wd_sample : WeatherData :=
  { temperature := 20, description := "Clear Sky", humidity := 50, wind_speed := 3,
    timestamp := 100, status := WeatherStatus.success, error_message := none,
    error_type := none }

/-- Witness for C3: a one-entry cache (ttl 1800, stored at time 1000,
read at time 1030) returns the CACHED copy and keeps the stored record. -/
theorem claim_C3_cache_get_cached_copy_witness :
    ((⟨1800, 10, [⟨"weather_LAX_1_2", wd_sample, 1000⟩], 0⟩ :
        WeatherCache).get 1030 "weather_LAX_1_2").1 =
      some { temperature := wd_sample.temperature, description := wd_sample.description,
             humidity := wd_sample.humidity, wind_speed := wd_sample.wind_speed,
             timestamp := wd_sample.timestamp, status := WeatherStatus.cached,
             error_message := wd_sample.error_message,
             error_type := wd_sample.error_type } ∧
    ((⟨1800, 10, [⟨"weather_LAX_1_2", wd_sample, 1000⟩], 0⟩ :
        WeatherCache).get 1030 "weather_LAX_1_2").2.entries.find?
        (fun e => e.key == "weather_LAX_1_2") = some ⟨"weather_LAX_1_2", wd_sample, 1000⟩ :=
  claim_C3_cache_get_cached_copy _ 1030 "weather_LAX_1_2" wd_sample 1000
    (by decide) (by decide)

/-- `set` preserves the configured default ttl. -/
theorem WeatherCache.set_default_ttl (c : WeatherCache) (now : Int) (key : String)
    (data : WeatherData) (ttlArg : Option Int) :
    (c.set now key data ttlArg).default_ttl = c.default_ttl := by
  unfold WeatherCache.set WeatherCache.evict_lru
  split_ifs <;> rfl

/-- C5: `is_expired(k)` is true iff `k` is absent or the elapsed time since
the timestamp recorded by `k`'s last `set` exceeds the cache's default ttl;
a per-entry ttl passed to `set` changes neither the expiry verdict nor the
resulting state (expiry always uses the default ttl). -/
theorem claim_C5_is_expired_default_ttl_only :
    (∀ (c : WeatherCache) (now : Int) (key : String),
        c.is_expired now key = true ↔
          c.entries.find? (fun e => e.key == key) = none ∨
          ∃ e, c.entries.find? (fun e2 => e2.key == key) = some e ∧
            now - e.ts > c.default_ttl) ∧
    (∀ (c : WeatherCache) (t0 now : Int) (key : String) (d : WeatherData)
        (ttlArg : Option Int),
        (c.set t0 key d ttlArg).is_expired now key =
          decide (now - t0 > c.default_ttl)) ∧
    (∀ (c : WeatherCache) (t0 : Int) (key : String) (d : WeatherData) (t : Int),
        c.set t0 key d (some t) = c.set t0 key d none) := by
  refine ⟨?_, ?_, ?_⟩
  · intro c now key
    unfold WeatherCache.is_expired
    cases hf : c.entries.find? (fun e => e.key == key) with
    | none => simp [hf]
    | some e => simp [hf]
  · intro c t0 now key d ttlArg
    unfold WeatherCache.is_expired
    rw [WeatherCache.set_find, WeatherCache.set_default_ttl]
  · intro c t0 key d t
    rfl


/-! ## Size bound and eviction behaviour of the in-memory cache (C4) -/

/-- The lookup step never grows the backing map and leaves the
configured `max_size` untouched. -/
theorem WeatherCache.lookup_step_shrink (c2 : WeatherCache) (now : Int) (key : String) :
    (c2.lookup_step now key).2.entries.length ≤ c2.entries.length ∧
    (c2.lookup_step now key).2.max_size = c2.max_size := by
  unfold WeatherCache.lookup_step
  split
  · exact ⟨le_refl _, rfl⟩
  · rename_i e hf
    split
    · exact ⟨List.length_filter_le _ _, rfl⟩
    · refine ⟨?_, rfl⟩
      have hlt : (c2.entries.filter (fun x => !(x.key == key))).length <
          c2.entries.length := by
        refine List.length_filter_lt_length_iff_exists.mpr ?_
        refine ⟨e, List.mem_of_find?_eq_some hf, ?_⟩
        simp [List.find?_some hf]
      rw [List.length_append, List.length_singleton]
      omega

/-- `set` keeps the entry count within `max_size` (given `max_size ≥ 1`)
and leaves `max_size` untouched. -/
theorem WeatherCache.set_length_le (c : WeatherCache) (now : Int) (key : String)
    (d : WeatherData) (ttlArg : Option Int) (hm : 1 ≤ c.max_size)
    (hinv : c.entries.length ≤ c.max_size) :
    (c.set now key d ttlArg).entries.length ≤ c.max_size ∧
    (c.set now key d ttlArg).max_size = c.max_size := by
  unfold WeatherCache.set WeatherCache.evict_lru
  split
  · rename_i hany
    refine ⟨?_, rfl⟩
    obtain ⟨x, hx, hpx⟩ := List.any_eq_true.mp hany
    have hlt : (c.entries.filter (fun x => !(x.key == key))).length <
        c.entries.length := by
      refine List.length_filter_lt_length_iff_exists.mpr ?_
      exact ⟨x, hx, by simp [hpx]⟩
    rw [List.length_append, List.length_singleton]
    omega
  · split
    · rename_i hsz
      refine ⟨?_, rfl⟩
      have he0 : 1 ≤ max 1 (c.max_size / 10) := le_max_left _ _
      have he1 : max 1 (c.max_size / 10) ≤ c.max_size := by
        have h10 : c.max_size / 10 ≤ c.max_size := Nat.div_le_self _ _
        exact max_le hm h10
      rw [List.length_append, List.length_drop, List.length_singleton]
      omega
    · rename_i hsz
      refine ⟨?_, rfl⟩
      rw [List.length_append, List.length_singleton]
      omega

/-- `cleanup_expired` never grows the backing map and leaves the
configured `max_size` untouched. -/
theorem WeatherCache.cleanup_shrink (c : WeatherCache) (now : Int) :
    (c.cleanup_expired now).1.entries.length ≤ c.entries.length ∧
    (c.cleanup_expired now).1.max_size = c.max_size := by
  unfold WeatherCache.cleanup_expired
  exact ⟨List.length_filter_le _ _, rfl⟩

/-- Every operation preserves the size invariant `length ≤ max_size`
(for `max_size ≥ 1`) together with the configured `max_size`. -/
theorem WeatherCache.step_inv (c : WeatherCache) (op : CacheOp)
    (hm : 1 ≤ c.max_size) (hinv : c.entries.length ≤ c.max_size) :
    (c.step op).entries.length ≤ c.max_size ∧
    (c.step op).max_size = c.max_size := by
  cases op with
  | get now key =>
    show (c.get now key).2.entries.length ≤ c.max_size ∧
      (c.get now key).2.max_size = c.max_size
    have hget : c.get now key =
        (if (c.access_count + 1) % 100 = 0 then
          ({ c with access_count := c.access_count + 1 } : WeatherCache).periodic_cleanup now
         else
          { c with access_count := c.access_count + 1 }).lookup_step now key := rfl
    rw [hget]
    by_cases hmod : (c.access_count + 1) % 100 = 0
    · rw [if_pos hmod]
      have hcl := WeatherCache.cleanup_shrink
        ({ c with access_count := c.access_count + 1 } : WeatherCache) now
      have hls := WeatherCache.lookup_step_shrink
        (({ c with access_count := c.access_count + 1 } :
          WeatherCache).periodic_cleanup now) now key
      unfold WeatherCache.periodic_cleanup at hls ⊢
      constructor
      · exact le_trans hls.1 (le_trans hcl.1 hinv)
      · rw [hls.2, hcl.2]
    · rw [if_neg hmod]
      have hls := WeatherCache.lookup_step_shrink
        ({ c with access_count := c.access_count + 1 } : WeatherCache) now key
      exact ⟨le_trans hls.1 hinv, hls.2⟩
  | set now key d ttlArg =>
    exact WeatherCache.set_length_le c now key d ttlArg hm hinv
  | cleanup now =>
    have hcl := WeatherCache.cleanup_shrink c now
    exact ⟨le_trans hcl.1 hinv, hcl.2⟩

/-- Along any run started from a state satisfying the invariant, the
invariant and the configured `max_size` are preserved. -/
theorem WeatherCache.run_inv (m : Nat) (hm : 1 ≤ m) (ops : List CacheOp)
    (c : WeatherCache) (hms : c.max_size = m) (hinv : c.entries.length ≤ m) :
    (ops.foldl WeatherCache.step c).entries.length ≤ m ∧
    (ops.foldl WeatherCache.step c).max_size = m := by
  induction ops generalizing c with
  | nil => exact ⟨hinv, hms⟩
  | cons op rest ih =>
    have hstep := WeatherCache.step_inv c op (by rw [hms]; exact hm) (by rw [hms]; exact hinv)
    rw [List.foldl_cons]
    exact ih (c.step op) (hstep.2.trans hms) (by rw [← hms]; exact hstep.1)

/-- C4: (a) starting from a fresh in-memory cache with `max_size ≥ 1`, after
any sequence of get/set/cleanup operations followed by a `set`, the entry
count is at most `max_size`; (b) a `set` of a new key finding the cache at
or above `max_size` first evicts exactly `max(1, max_size // 10)` entries
from the least-recently-used end, then appends the new entry. -/
theorem claim_C4_cache_size_bound_and_eviction :
    (∀ (dttl : Int) (m : Nat) (ops : List CacheOp) (now : Int) (key : String)
        (d : WeatherData) (ttlArg : Option Int), 1 ≤ m →
        (WeatherCache.run dttl m
          (ops ++ [CacheOp.set now key d ttlArg])).entries.length ≤ m) ∧
    (∀ (c : WeatherCache) (now : Int) (key : String) (d : WeatherData)
        (ttlArg : Option Int),
        1 ≤ c.max_size →
        c.entries.any (fun e => e.key == key) = false →
        c.max_size ≤ c.entries.length →
        (c.set now key d ttlArg).entries =
            c.entries.drop (max 1 (c.max_size / 10)) ++ [⟨key, d, now⟩] ∧
        max 1 (c.max_size / 10) ≤ c.entries.length ∧
        (c.set now key d ttlArg).entries.length =
            c.entries.length - max 1 (c.max_size / 10) + 1) := by
  constructor
  · intro dttl m ops now key d ttlArg hm
    unfold WeatherCache.run
    rw [List.foldl_append, List.foldl_cons, List.foldl_nil]
    have hrun := WeatherCache.run_inv m hm ops (WeatherCache.init dttl m) rfl
      (by simp [WeatherCache.init])
    have hstep := WeatherCache.step_inv (ops.foldl WeatherCache.step
      (WeatherCache.init dttl m)) (CacheOp.set now key d ttlArg)
      (by rw [hrun.2]; exact hm) (by rw [hrun.2]; exact hrun.1)
    exact le_trans hstep.1 (le_of_eq hrun.2)
  · intro c now key d ttlArg hm hany hsz
    have hset : (c.set now key d ttlArg).entries =
        c.entries.drop (max 1 (c.max_size / 10)) ++ [⟨key, d, now⟩] := by
      unfold WeatherCache.set WeatherCache.evict_lru
      rw [if_neg (by rw [hany]; exact Bool.false_ne_true), if_pos hsz]
    refine ⟨hset, ?_, ?_⟩
    · have h10 : c.max_size / 10 ≤ c.max_size := Nat.div_le_self _ _
      have hmax : max 1 (c.max_size / 10) ≤ c.max_size := max_le hm h10
      omega
    · rw [hset, List.length_append, List.length_drop, List.length_singleton]

/-- Witness for C4: `max_size = 1`; a run consisting of one `set` stays
within the bound, and a second `set` of a new key on the resulting
one-entry cache evicts exactly `max(1, 1 // 10) = 1` entry from the
least-recently-used end. -/
theorem claim_C4_cache_size_bound_and_eviction_witness :
    (WeatherCache.run 1800 1
      ([] ++ [CacheOp.set 0 "weather_AAA_1_2" wd_sample none])).entries.length ≤ 1 ∧
    (((⟨1800, 1, [⟨"weather_AAA_1_2", wd_sample, 0⟩], 0⟩ : WeatherCache).set 5
        "weather_BBB_3_4" wd_sample none).entries =
      ([⟨"weather_AAA_1_2", wd_sample, 0⟩] : List CacheEntry).drop (max 1 (1 / 10)) ++
        [⟨"weather_BBB_3_4", wd_sample, 5⟩] ∧
      max 1 (1 / 10) ≤ ([⟨"weather_AAA_1_2", wd_sample, 0⟩] : List CacheEntry).length ∧
      ((⟨1800, 1, [⟨"weather_AAA_1_2", wd_sample, 0⟩], 0⟩ : WeatherCache).set 5
          "weather_BBB_3_4" wd_sample none).entries.length =
        ([⟨"weather_AAA_1_2", wd_sample, 0⟩] : List CacheEntry).length -
          max 1 (1 / 10) + 1) :=
  ⟨claim_C4_cache_size_bound_and_eviction.1 1800 1 [] 0 "weather_AAA_1_2" wd_sample
      none (by decide),
   claim_C4_cache_size_bound_and_eviction.2
      ⟨1800, 1, [⟨"weather_AAA_1_2", wd_sample, 0⟩], 0⟩ 5 "weather_BBB_3_4" wd_sample
      none (by decide) (by decide) (by decide)⟩

/-! ## Report statistics (src/report_generator.py, `generate_statistics`)

A results mapping (a Python dict of IATA code → WeatherData-or-None) is
modelled as an association list in insertion order; `generate_statistics`
only reads its size and its values. -/

/-- `ReportStats` dataclass from src/report_generator.py. -/
structure ReportStats where
  total_airports : Nat
  successful_queries : Nat
  failed_queries : Nat
  cached_queries : Nat
  processing_time : ℚ
  cache_hit_rate : ℚ
  deriving DecidableEq, Repr

/-- `WeatherReportGenerator.generate_statistics` from src/report_generator.py.
The `cache_hits` argument is accepted and, as in the source, never used. -/
def generate_statistics (results : List (String × Option WeatherData))
    (processing_time : ℚ) (cache_hits : Nat) : ReportStats :=
  let _unused_cache_hits := cache_hits
  let total_airports := results.length
  let successful_queries := results.countP (fun p =>
    match p.2 with
    | some w => w.status == WeatherStatus.success || w.status == WeatherStatus.cached
    | none => false)
  let failed_queries := results.countP (fun p =>
    match p.2 with
    | some w => w.status == WeatherStatus.error || w.status == WeatherStatus.not_available
    | none => true)
  let cached_queries := results.countP (fun p =>
    match p.2 with
    | some w => w.status == WeatherStatus.cached
    | none => false)
  let cache_hit_rate : ℚ :=
    if 0 < total_airports then (cached_queries : ℚ) / (total_airports : ℚ) * 100 else 0
  { total_airports := total_airports
    successful_queries := successful_queries
    failed_queries := failed_queries
    cached_queries := cached_queries
    processing_time := processing_time
    cache_hit_rate := cache_hit_rate }

/-- Spec-side counter: number of entries whose value is present with
status SUCCESS. -/
def count_success (results : List (String × Option WeatherData)) : Nat :=
  results.countP (fun p =>
    match p.2 with
    | some w => w.status == WeatherStatus.success
    | none => false)

/-- Spec-side counter: number of entries whose value is present with
status CACHED. -/
def count_cached (results : List (String × Option WeatherData)) : Nat :=
  results.countP (fun p =>
    match p.2 with
    | some w => w.status == WeatherStatus.cached
    | none => false)

/-- Spec-side counter: number of entries whose value is absent or has
status ERROR or NOT_AVAILABLE. -/
def count_failed_or_absent (results : List (String × Option WeatherData)) : Nat :=
  results.countP (fun p =>
    match p.2 with
    | some w => w.status == WeatherStatus.error || w.status == WeatherStatus.not_available
    | none => true)

/-- Counting a disjunction of pointwise-exclusive predicates adds the counts. -/
theorem countP_or_disjoint {α : Type} (p q : α → Bool) (l : List α)
    (h : ∀ x ∈ l, ¬(p x = true ∧ q x = true)) :
    l.countP (fun x => p x || q x) = l.countP p + l.countP q := by
  induction l with
  | nil => simp
  | cons a t ih =>
    have ha := h a (by simp)
    rw [List.countP_cons, List.countP_cons, List.countP_cons,
      ih (fun x hx => h x (by simp [hx]))]
    by_cases hp : p a = true <;> by_cases hq : q a = true <;>
      simp [hp, hq] at ha ⊢ <;> omega

/-- C6: `generate_statistics` returns total = size of the mapping,
successful = #SUCCESS + #CACHED, failed = #(ERROR or NOT_AVAILABLE or
absent), cached = #CACHED; the three buckets partition the mapping; and
the cache-hit rate is cached/total × 100, with 0 for the empty mapping
(no division error). -/
theorem claim_C6_generate_statistics_counts
    (results : List (String × Option WeatherData)) (pt : ℚ) (ch : Nat) :
    (generate_statistics results pt ch).total_airports = results.length ∧
    (generate_statistics results pt ch).successful_queries =
      count_success results + count_cached results ∧
    (generate_statistics results pt ch).failed_queries =
      count_failed_or_absent results ∧
    (generate_statistics results pt ch).cached_queries = count_cached results ∧
    count_success results + count_cached results + count_failed_or_absent results =
      results.length ∧
    (generate_statistics results pt ch).cache_hit_rate =
      (if results.length = 0 then 0 else
        (count_cached results : ℚ) / (results.length : ℚ) * 100) ∧
    (results = [] → (generate_statistics results pt ch).cache_hit_rate = 0) := by
  have hsucc : (generate_statistics results pt ch).successful_queries =
      count_success results + count_cached results := by
    show results.countP _ = _
    unfold count_success count_cached
    rw [← countP_or_disjoint]
    · apply List.countP_congr
      intro x _
      rcases x with ⟨k, o⟩
      rcases o with _ | w
      · simp
      · rcases w with ⟨temp, desc, hum, ws, ts, st, em, et⟩
        cases st <;> simp
    · intro x _
      rcases x with ⟨k, o⟩
      rcases o with _ | w
      · simp
      · rcases w with ⟨temp, desc, hum, ws, ts, st, em, et⟩
        cases st <;> simp
  have hpart : count_success results + count_cached results +
      count_failed_or_absent results = results.length := by
    rw [← hsucc]
    show results.countP (fun p =>
      match p.2 with
      | some w => w.status == WeatherStatus.success || w.status == WeatherStatus.cached
      | none => false) + results.countP (fun p =>
      match p.2 with
      | some w => w.status == WeatherStatus.error || w.status == WeatherStatus.not_available
      | none => true) = results.length
    rw [List.length_eq_countP_add_countP (fun p : String × Option WeatherData =>
      match p.2 with
      | some w => w.status == WeatherStatus.success || w.status == WeatherStatus.cached
      | none => false)]
    congr 1
    apply List.countP_congr
    intro x _
    rcases x with ⟨k, o⟩
    rcases o with _ | w
    · simp
    · rcases w with ⟨temp, desc, hum, ws, ts, st, em, et⟩
      cases st <;> simp
  refine ⟨rfl, hsucc, rfl, rfl, hpart, ?_, ?_⟩
  · show (if 0 < results.length then
        ((count_cached results : ℚ) / (results.length : ℚ) * 100) else 0) = _
    by_cases hlen : results.length = 0
    · simp [hlen]
    · rw [if_pos (Nat.pos_of_ne_zero hlen), if_neg hlen]
  · intro hnil
    subst hnil
    rfl

/-- Witness for C6: the empty mapping yields a 0.0 cache-hit rate with no
division error, and a one-entry mapping has total 1. -/
theorem claim_C6_generate_statistics_counts_witness :
    (generate_statistics [] 1 0).cache_hit_rate = 0 ∧
    (generate_statistics [("MEX", some wd_sample)] 1 0).total_airports = 1 :=
  ⟨(claim_C6_generate_statistics_counts [] 1 0).2.2.2.2.2.2 rfl,
   (claim_C6_generate_statistics_counts [("MEX", some wd_sample)] 1 0).1⟩

/-! ## Unique-airport extraction (src/data_processor.py,
`FlightDataProcessor.extract_unique_airports`)

A cleaned dataset row carries the ten required columns; the extraction
only reads the airport-identifying ones.  The Python `unique_airports`
dict keyed by IATA code, filled with insert-if-absent and read back with
`list(unique_airports.values())`, is modelled as a list of Airports in
insertion order to which a new airport is appended only when its code is
not yet present. -/

/-- One row of the cleaned flight dataset (columns used by the
extraction; the remaining required columns are carried for completeness). -/
structure FlightRow where
  origin_iata_code : String
  origin_name : String
  origin_latitude : ℚ
  origin_longitude : ℚ
  destination_iata_code : String
  destination_name : String
  destination_latitude : ℚ
  destination_longitude : ℚ
  airline : String
  flight_num : String
  deriving DecidableEq, Repr

/-- The Airport built from a row's origin columns (src/data_processor.py,
lines 127-132). -/
def originAirport (r : FlightRow) : Airport :=
  { iata_code := r.origin_iata_code, name := r.origin_name,
    latitude := r.origin_latitude, longitude := r.origin_longitude }

/-- The Airport built from a row's destination columns
(src/data_processor.py, lines 137-142). -/
def destinationAirport (r : FlightRow) : Airport :=
  { iata_code := r.destination_iata_code, name := r.destination_name,
    latitude := r.destination_latitude, longitude := r.destination_longitude }

/-- `if code not in unique_airports: unique_airports[code] = Airport(...)`:
append the airport only when its code is not registered yet. -/
def registerAirport (m : List Airport) (a : Airport) : List Airport :=
  if m.any (fun x => x.iata_code == a.iata_code) then m else m ++ [a]

/-- `FlightDataProcessor.extract_unique_airports`: iterate the rows,
registering the origin airport and then the destination airport of each
row; return the registered airports in insertion order. -/
def extract_unique_airports (df : List FlightRow) : List Airport :=
  df.foldl (fun m r => registerAirport (registerAirport m (originAirport r))
    (destinationAirport r)) []

/-- Spec-side view: the airports referenced by the dataset as a stream in
row order, origin before destination within each row. -/
def airport_stream : List FlightRow → List Airport
  | [] => []
  | r :: rest => originAirport r :: destinationAirport r :: airport_stream rest

/-- Spec-side view: keep the first airport seen for each IATA code, in
first-seen order. -/
def first_seen_dedup : List Airport → List Airport
  | [] => []
  | a :: rest =>
    a :: first_seen_dedup (rest.filter (fun x => !(x.iata_code == a.iata_code)))
termination_by l => l.length
decreasing_by
  simp only [List.length_cons]
  exact Nat.lt_succ_of_le (List.length_filter_le _ _)


/-- Folding `registerAirport` from any accumulator appends exactly the
first-seen deduplication of the not-yet-registered part of the stream. -/
theorem foldl_registerAirport (l : List Airport) :
    ∀ acc : List Airport,
      l.foldl registerAirport acc =
        acc ++ first_seen_dedup (l.filter (fun a =>
          !(acc.any (fun x => x.iata_code == a.iata_code)))) := by
  induction l with
  | nil => intro acc; simp [first_seen_dedup]
  | cons a rest ih =>
    intro acc
    rw [List.foldl_cons]
    by_cases hmem : acc.any (fun x => x.iata_code == a.iata_code) = true
    · have hreg : registerAirport acc a = acc := by
        unfold registerAirport
        rw [if_pos hmem]
      rw [hreg, ih acc, List.filter_cons]
      have hdrop : (!(acc.any (fun x => x.iata_code == a.iata_code))) = false := by
        rw [hmem]; rfl
      rw [hdrop]
      simp only [Bool.false_eq_true, if_false]
    · have hmem2 : acc.any (fun x => x.iata_code == a.iata_code) = false :=
        Bool.not_eq_true _ ▸ eq_false_of_ne_true hmem
      have hreg : registerAirport acc a = acc ++ [a] := by
        unfold registerAirport
        rw [if_neg hmem]
      rw [hreg, ih (acc ++ [a]), List.filter_cons]
      have hkeep : (!(acc.any (fun x => x.iata_code == a.iata_code))) = true := by
        rw [hmem2]; rfl
      rw [hkeep]
      simp only [if_true]
      have hfilt : rest.filter (fun b =>
          !((acc ++ [a]).any (fun x => x.iata_code == b.iata_code))) =
          (rest.filter (fun b =>
            !(acc.any (fun x => x.iata_code == b.iata_code)))).filter
            (fun x => !(x.iata_code == a.iata_code)) := by
        rw [List.filter_filter]
        apply List.filter_congr
        intro b _
        by_cases hcode : a.iata_code = b.iata_code
        · simp [List.any_append, hcode]
        · have h1 : (a.iata_code == b.iata_code) = false := by
            simp [hcode]
          have h2 : (b.iata_code == a.iata_code) = false := by
            simp only [beq_eq_false_iff_ne, ne_eq]
            intro h
            exact hcode h.symm
          simp [List.any_append, h1, h2]
      rw [hfilt]
      show (acc ++ [a]) ++ _ = _
      rw [List.append_assoc]
      congr 1
      rw [first_seen_dedup]
      simp

/-- Folding registration row by row is folding it over the airport
stream (origin before destination within each row). -/
theorem foldl_rows_eq_stream (df : List FlightRow) :
    ∀ acc : List Airport,
      df.foldl (fun m r => registerAirport (registerAirport m (originAirport r))
        (destinationAirport r)) acc =
      (airport_stream df).foldl registerAirport acc := by
  induction df with
  | nil => intro acc; rfl
  | cons r rest ih =>
    intro acc
    rw [List.foldl_cons, airport_stream, List.foldl_cons, List.foldl_cons]
    exact ih _

/-- Every airport kept by the first-seen deduplication comes from the
input stream. -/
theorem mem_of_mem_first_seen_dedup :
    ∀ (n : Nat) (l : List Airport), l.length ≤ n →
      ∀ x ∈ first_seen_dedup l, x ∈ l := by
  intro n
  induction n with
  | zero =>
    intro l hl x hx
    cases l with
    | nil => simp [first_seen_dedup] at hx
    | cons a rest => simp at hl
  | succ n ih =>
    intro l hl x hx
    cases l with
    | nil => simp [first_seen_dedup] at hx
    | cons a rest =>
      rw [first_seen_dedup] at hx
      rcases List.mem_cons.mp hx with hxa | hxd
      · exact hxa ▸ List.mem_cons_self _ _
      · have hlen : (rest.filter (fun x => !(x.iata_code == a.iata_code))).length ≤ n := by
          have := List.length_filter_le (fun x => !(x.iata_code == a.iata_code)) rest
          simp only [List.length_cons] at hl
          omega
        have hxr := ih _ hlen x hxd
        exact List.mem_cons_of_mem _ (List.mem_of_mem_filter hxr)

/-- The first-seen deduplication keeps at most one airport per IATA code. -/
theorem first_seen_dedup_codes_nodup :
    ∀ (n : Nat) (l : List Airport), l.length ≤ n →
      ((first_seen_dedup l).map (fun a => a.iata_code)).Nodup := by
  intro n
  induction n with
  | zero =>
    intro l hl
    cases l with
    | nil => simp [first_seen_dedup]
    | cons a rest => simp at hl
  | succ n ih =>
    intro l hl
    cases l with
    | nil => simp [first_seen_dedup]
    | cons a rest =>
      rw [first_seen_dedup]
      have hlen : (rest.filter (fun x => !(x.iata_code == a.iata_code))).length ≤ n := by
        have := List.length_filter_le (fun x => !(x.iata_code == a.iata_code)) rest
        simp only [List.length_cons] at hl
        omega
      rw [List.map_cons, List.nodup_cons]
      refine ⟨?_, ih _ hlen⟩
      intro hmem
      obtain ⟨x, hx, hcode⟩ := List.mem_map.mp hmem
      have hxf := mem_of_mem_first_seen_dedup n _ hlen x hx
      have := (List.mem_filter.mp hxf).2
      rw [hcode] at this
      simp at this

/-- C9: `extract_unique_airports` returns exactly the first-seen
deduplication of the origin/destination airport stream in row order
(origin scanned before destination within a row): one Airport per distinct
IATA code in first-seen order, each carrying the name and coordinates of
its first occurrence, with later rows never overwriting. -/
theorem claim_C9_extract_unique_airports (df : List FlightRow) :
    extract_unique_airports df = first_seen_dedup (airport_stream df) ∧
    ((extract_unique_airports df).map (fun a => a.iata_code)).Nodup := by
  have heq : extract_unique_airports df = first_seen_dedup (airport_stream df) := by
    unfold extract_unique_airports
    rw [foldl_rows_eq_stream, foldl_registerAirport]
    simp
  refine ⟨heq, ?_⟩
  rw [heq]
  exact first_seen_dedup_codes_nodup (airport_stream df).length _ (le_refl _)

/-! ## The report call in the CLI pipeline (C7)

`generate_terminal_report` is declared in src/report_generator.py (lines
42-44) with the parameters `self, results, airports, stats=None`.  The
pipeline in src/cli.py (lines 419-424) invokes it with the keyword
arguments `results, airports, stats, flight_dataset`.  Python binds a
keyword call only when every keyword names a declared parameter; an
unknown keyword raises TypeError.  The embedding models the declared
keyword-bindable parameter list (with `self` bound by the method access)
and the binding check. -/

/-- Parameters of `WeatherReportGenerator.generate_terminal_report`
(src/report_generator.py, lines 42-44), `self` excluded. -/
def generate_terminal_report_params : List String :=
  ["results", "airports", "stats"]

/-- Python keyword binding: a keyword call binds iff every supplied
keyword names a declared parameter (the function has no `**kwargs`). -/
def bindsKeywords (params : List String) (kwargs : List String) : Bool :=
  kwargs.all (fun k => params.contains k)

/-- Keyword arguments of the `generate_terminal_report` call issued by
`process_weather_report` (src/cli.py, lines 419-424). -/
def cli_report_call_kwargs : List String :=
  ["results", "airports", "stats", "flight_dataset"]

/-- C7 (code bug): the CLI's report call passes `flight_dataset`, but
`generate_terminal_report` declares no such parameter, so the call does
not bind (it raises TypeError at runtime); dropping the extra keyword
would bind.  The claim's flight-summary panel also appears nowhere in
`generate_terminal_report` -- only `generate_flight_level_report` builds
one. -/
theorem claim_C7_report_call_does_not_bind :
    bindsKeywords generate_terminal_report_params cli_report_call_kwargs = false ∧
    bindsKeywords generate_terminal_report_params
      ["results", "airports", "stats"] = true := by
  constructor
  · rfl
  · rfl

/-! ## Batch weather retrieval (src/weather_service.py,
`WeatherService.get_weather_for_airports`)

Each airport gets one task running
`_get_weather_for_single_airport_with_graceful_handling`; the
nondeterministic outcome of the inner
`_get_weather_for_single_airport` call is supplied by an environment
`inner : Airport → Except String WeatherData` (`Except.error msg` models
an arbitrary exception escaping the inner steps).  The graceful wrapper
converts escaped exceptions to a NOT_AVAILABLE / UNKNOWN_ERROR
placeholder; `asyncio.gather(..., return_exceptions=True)` hands back one
task result per airport, and the collection loop converts any result
that is still an exception before storing it in the results dict.  The
statistics updates in the loop do not modify the stored values.  The
results dict is modelled as an association list in insertion order. -/

/-- `WeatherService._create_unavailable_weather_data`
(src/weather_service.py lines 612-632). -/
def create_unavailable_weather_data (error_message : String) (error_type : ErrorTypes)
    (now : Int) : WeatherData :=
  { temperature := 0, description := "Clima no disponible", humidity := 0,
    wind_speed := 0, timestamp := now, status := WeatherStatus.not_available,
    error_message := some error_message, error_type := some error_type }

/-- `_get_weather_for_single_airport_with_graceful_handling`: returns the
inner result, or converts an escaped exception into the placeholder. -/
def single_airport_graceful (inner_result : Except String WeatherData) (now : Int) :
    WeatherData :=
  match inner_result with
  | Except.ok d => d
  | Except.error e =>
    create_unavailable_weather_data ("Unexpected service error: " ++ e)
      ErrorTypes.unknown_error now

/-- The `isinstance(result, Exception)` branch of the collection loop in
`get_weather_for_airports`: a task result that is still an exception is
converted to the placeholder. -/
def gather_convert (task_result : Except String WeatherData) (now : Int) : WeatherData :=
  match task_result with
  | Except.ok d => d
  | Except.error e =>
    create_unavailable_weather_data ("Processing exception: " ++ e)
      ErrorTypes.unknown_error now

/-- `results[iata_code] = weather_data` on a Python dict: overwrite in
place if the key exists, else append. -/
def dictInsert (m : List (String × WeatherData)) (k : String) (v : WeatherData) :
    List (String × WeatherData) :=
  if m.any (fun p => p.1 == k) then
    m.map (fun p => if p.1 == k then (p.1, v) else p)
  else
    m ++ [(k, v)]

/-- `WeatherService.get_weather_for_airports`: empty input is returned
immediately; otherwise one graceful task per airport is gathered and the
results dict is filled in task-list order. -/
def get_weather_for_airports (airports : List Airport)
    (inner : Airport → Except String WeatherData) (now : Int) :
    List (String × WeatherData) :=
  if airports.isEmpty then []
  else
    airports.foldl (fun results a =>
      dictInsert results a.iata_code
        (gather_convert (Except.ok (single_airport_graceful (inner a) now)) now)) []

/-- Overwriting a value in place does not change the key list. -/
theorem dictInsert_overwrite_keys (m : List (String × WeatherData)) (k : String)
    (v : WeatherData) :
    (m.map (fun p => if p.1 == k then (p.1, v) else p)).map Prod.fst =
      m.map Prod.fst := by
  induction m with
  | nil => rfl
  | cons p rest ih =>
    rw [List.map_cons, List.map_cons, List.map_cons, ih]
    by_cases hp : (p.1 == k) = true
    · rw [if_pos hp]
    · rw [if_neg hp]

/-- Key membership after a dict assignment. -/
theorem dictInsert_keys (m : List (String × WeatherData)) (k : String) (v : WeatherData)
    (k2 : String) :
    k2 ∈ (dictInsert m k v).map Prod.fst ↔ (k2 ∈ m.map Prod.fst ∨ k2 = k) := by
  unfold dictInsert
  by_cases hany : m.any (fun p => p.1 == k) = true
  · rw [if_pos hany, dictInsert_overwrite_keys]
    constructor
    · exact Or.inl
    · rintro (h | rfl)
      · exact h
      · obtain ⟨p, hp, hpk⟩ := List.any_eq_true.mp hany
        exact List.mem_map.mpr ⟨p, hp, by simpa using hpk⟩
  · rw [if_neg hany, List.map_append]
    simp [List.mem_append]

/-- A dict assignment preserves key uniqueness. -/
theorem dictInsert_keys_nodup (m : List (String × WeatherData)) (k : String)
    (v : WeatherData) (h : (m.map Prod.fst).Nodup) :
    ((dictInsert m k v).map Prod.fst).Nodup := by
  unfold dictInsert
  by_cases hany : m.any (fun p => p.1 == k) = true
  · rw [if_pos hany, dictInsert_overwrite_keys]
    exact h
  · rw [if_neg hany, List.map_append]
    refine List.Nodup.append h (by simp) ?_
    intro x hx hx2
    simp only [List.map_cons, List.map_nil, List.mem_singleton] at hx2
    subst hx2
    obtain ⟨p, hp, hpx⟩ := List.mem_map.mp hx
    exact hany (List.any_eq_true.mpr ⟨p, hp, by simp [hpx]⟩)

/-- Key membership in the results dict built by the collection loop. -/
theorem build_results_keys (f : Airport → WeatherData) (l : List Airport) :
    ∀ (acc : List (String × WeatherData)) (k2 : String),
      (k2 ∈ ((l.foldl (fun results a => dictInsert results a.iata_code (f a))
          acc).map Prod.fst) ↔
        k2 ∈ acc.map Prod.fst ∨ k2 ∈ l.map (fun a => a.iata_code)) := by
  induction l with
  | nil => intro acc k2; simp
  | cons a rest ih =>
    intro acc k2
    rw [List.foldl_cons, ih, dictInsert_keys]
    simp only [List.map_cons, List.mem_cons]
    tauto

/-- The results dict built by the collection loop has pairwise-distinct keys. -/
theorem build_results_nodup (f : Airport → WeatherData) (l : List Airport) :
    ∀ acc : List (String × WeatherData), (acc.map Prod.fst).Nodup →
      (((l.foldl (fun results a => dictInsert results a.iata_code (f a))
          acc).map Prod.fst)).Nodup := by
  induction l with
  | nil => intro acc h; exact h
  | cons a rest ih =>
    intro acc h
    rw [List.foldl_cons]
    exact ih _ (dictInsert_keys_nodup _ _ _ h)

/-- With pairwise-distinct codes and a fresh accumulator, the collection
loop appends one entry per airport in order. -/
theorem build_results_fresh (f : Airport → WeatherData) (l : List Airport) :
    ∀ acc : List (String × WeatherData),
      (∀ a ∈ l, ∀ p ∈ acc, (p.1 == a.iata_code) = false) →
      (l.map (fun a => a.iata_code)).Nodup →
      l.foldl (fun results a => dictInsert results a.iata_code (f a)) acc =
        acc ++ l.map (fun a => (a.iata_code, f a)) := by
  induction l with
  | nil => intro acc _ _; simp
  | cons a rest ih =>
    intro acc hfresh hnd
    rw [List.foldl_cons]
    have hany : acc.any (fun p => p.1 == a.iata_code) = false := by
      rw [List.any_eq_false]
      intro p hp
      simp [hfresh a (List.mem_cons_self _ _) p hp]
    have hins : dictInsert acc a.iata_code (f a) = acc ++ [(a.iata_code, f a)] := by
      unfold dictInsert
      rw [if_neg (by rw [hany]; exact Bool.false_ne_true)]
    obtain ⟨hnotin, hndrest⟩ : (∀ x ∈ rest, ¬ x.iata_code = a.iata_code) ∧
        (rest.map (fun b => b.iata_code)).Nodup := by simpa using hnd
    rw [hins, ih (acc ++ [(a.iata_code, f a)]) ?_ hndrest]
    · rw [List.map_cons, List.append_assoc, List.singleton_append]
    · intro b hb p hp
      rcases List.mem_append.mp hp with hpacc | hpnew
      · exact hfresh b (List.mem_cons_of_mem _ hb) p hpacc
      · have hpeq : p = (a.iata_code, f a) := by simpa using hpnew
        subst hpeq
        simp only [beq_eq_false_iff_ne, ne_eq]
        intro heq
        exact hnotin b hb heq.symm

/-- Looking an airport's code up in the appended per-airport entries
yields that airport's own entry, given pairwise-distinct codes. -/
theorem map_entries_find (f : Airport → WeatherData) (l : List Airport)
    (hnd : (l.map (fun a => a.iata_code)).Nodup) :
    ∀ a ∈ l, (l.map (fun b => (b.iata_code, f b))).find?
        (fun p => p.1 == a.iata_code) = some (a.iata_code, f a) := by
  induction l with
  | nil => intro a ha; simp at ha
  | cons b rest ih =>
    obtain ⟨hnotin, hndrest⟩ : (∀ x ∈ rest, ¬ x.iata_code = b.iata_code) ∧
        (rest.map (fun c => c.iata_code)).Nodup := by simpa using hnd
    intro a ha
    rcases List.mem_cons.mp ha with rfl | harest
    · rw [List.map_cons, List.find?_cons_of_pos _ (by simp)]
    · rw [List.map_cons, List.find?_cons_of_neg, ih hndrest a harest]
      simp only [beq_iff_eq]
      intro heq
      exact hnotin a harest heq.symm

/-- C1: the result mapping's key set is exactly the set of input IATA
codes, with one entry per code; the empty batch yields the empty mapping;
under pairwise-distinct codes every airport's entry is exactly the value
produced by its own (graceful) resolution, so an airport whose inner
resolution raises gets the NOT_AVAILABLE / UNKNOWN_ERROR placeholder and
every other airport's entry is unaffected. -/
theorem claim_C1_get_weather_for_airports (airports : List Airport)
    (inner : Airport → Except String WeatherData) (now : Int) :
    get_weather_for_airports [] inner now = [] ∧
    (∀ k, k ∈ (get_weather_for_airports airports inner now).map Prod.fst ↔
        k ∈ airports.map (fun a => a.iata_code)) ∧
    ((get_weather_for_airports airports inner now).map Prod.fst).Nodup ∧
    ((airports.map (fun a => a.iata_code)).Nodup →
      ∀ a ∈ airports,
        (get_weather_for_airports airports inner now).find?
            (fun p => p.1 == a.iata_code) =
          some (a.iata_code, single_airport_graceful (inner a) now)) ∧
    (∀ e, (single_airport_graceful (Except.error e) now).status =
        WeatherStatus.not_available ∧
      (single_airport_graceful (Except.error e) now).error_type =
        some ErrorTypes.unknown_error ∧
      (single_airport_graceful (Except.error e) now).description =
        "Clima no disponible") ∧
    (∀ d, single_airport_graceful (Except.ok d) now = d) := by
  by_cases hne : airports.isEmpty = true
  · have hnil : airports = [] := List.isEmpty_iff.mp hne
    subst hnil
    refine ⟨rfl, by simp [get_weather_for_airports], by simp [get_weather_for_airports],
      ?_, fun e => ⟨rfl, rfl, rfl⟩, fun d => rfl⟩
    intro _ a ha
    simp at ha
  · have hgw : get_weather_for_airports airports inner now =
        airports.foldl (fun results a =>
          dictInsert results a.iata_code
            (gather_convert (Except.ok (single_airport_graceful (inner a) now)) now)) [] := by
      unfold get_weather_for_airports
      rw [if_neg (by rw [Bool.not_eq_true] at hne ⊢; exact hne)]
    refine ⟨rfl, ?_, ?_, ?_, fun e => ⟨rfl, rfl, rfl⟩, fun d => rfl⟩
    · intro k
      rw [hgw, build_results_keys]
      simp
    · rw [hgw]
      exact build_results_nodup _ airports [] (by simp)
    · intro hnd a ha
      rw [hgw, build_results_fresh _ airports [] (by intro b _ p hp; simp at hp) hnd,
        List.nil_append]
      exact map_entries_find _ airports hnd a ha

/-- Two concrete airports used by the C1 witness. -/
def airportA : Airport := { iata_code := "AAA", name := "Alpha", latitude := 1, longitude := 2 }

/-- Second concrete airport used by the C1 witness. -/
def airportB : Airport := { iata_code := "BBB", name := "Beta", latitude := 3, longitude := 4 }

/-- Concrete per-airport resolution for the C1 witness: airport AAA's
resolution raises, airport BBB's returns a value. -/
def innerW : Airport → Except String WeatherData := fun a =>
  if a.iata_code == "AAA" then Except.error "boom" else Except.ok wd_sample

/-- Witness for C1: in the two-airport batch where AAA's resolution
raises and BBB's succeeds, AAA's entry is its own graceful placeholder
(NOT_AVAILABLE / UNKNOWN_ERROR) and BBB's entry is BBB's own value. -/
theorem claim_C1_get_weather_for_airports_witness :
    (get_weather_for_airports [airportA, airportB] innerW 0).find?
        (fun p => p.1 == airportA.iata_code) =
      some (airportA.iata_code, single_airport_graceful (innerW airportA) 0) ∧
    (get_weather_for_airports [airportA, airportB] innerW 0).find?
        (fun p => p.1 == airportB.iata_code) =
      some (airportB.iata_code, single_airport_graceful (innerW airportB) 0) ∧
    (single_airport_graceful (Except.error "boom") 0).status =
      WeatherStatus.not_available ∧
    (single_airport_graceful (Except.error "boom") 0).error_type =
      some ErrorTypes.unknown_error :=
  ⟨(claim_C1_get_weather_for_airports [airportA, airportB] innerW 0).2.2.2.1
      (by decide) airportA (by simp),
   (claim_C1_get_weather_for_airports [airportA, airportB] innerW 0).2.2.2.1
      (by decide) airportB (by simp),
   ((claim_C1_get_weather_for_airports [airportA, airportB] innerW 0).2.2.2.2.1
      "boom").1,
   ((claim_C1_get_weather_for_airports [airportA, airportB] innerW 0).2.2.2.2.1
      "boom").2.1⟩

/-! ## The weather API client (src/weather_service.py, `WeatherAPIClient`)

One HTTP attempt is modelled by an `AttemptEvent` describing what the
network did (a response with status/reason/body, a connection-level
failure, a timeout, or an unexpected exception); a whole call takes an
environment `env : Nat → AttemptEvent` giving the event of each attempt.
Python exceptions relevant to the client are the constructors of `PyExn`;
`aiohttp.ClientResponseError` is a subclass of `aiohttp.ClientError`, so
both are matched by tenacity's
`retry_if_exception_type((ClientError, TimeoutError, ServerTimeoutError))`.
After `stop_after_attempt(3)` is hit, tenacity raises a `RetryError`
wrapping the last attempt's exception (the default `reraise=False`). -/

/-- The `main` section of the provider's JSON body. -/
structure MainSection where
  temp : Option ℚ
  humidity : Option Int
  deriving DecidableEq, Repr

/-- One element of the `weather` list of the provider's JSON body. -/
structure WeatherItem where
  description : Option String
  deriving DecidableEq, Repr

/-- The `wind` section of the provider's JSON body. -/
structure WindSection where
  speed : Option ℚ
  deriving DecidableEq, Repr

/-- The parts of the provider's JSON body that
`_parse_weather_response` reads. -/
structure ApiResponse where
  main : Option MainSection
  weather : Option (List WeatherItem)
  wind : Option WindSection
  deriving DecidableEq, Repr

/-- What the network does on one HTTP attempt. -/
inductive AttemptEvent where
  | response (code : Nat) (reason : String) (body : ApiResponse)
  | connError (msg : String)
  | timeout
  | unexpected (msg : String)
  deriving DecidableEq, Repr

/-- The Python exceptions crossing the client's boundaries. -/
inductive PyExn where
  | clientResponseError (status : Nat) (msg : String)
  | clientError (msg : String)
  | timeoutError
  | valueError (msg : String)
  | unexpectedError (msg : String)
  | retryError (last : PyExn)
  deriving DecidableEq, Repr

/-- Python `str.title()` for ASCII text: the first character of every
alphabetic run is uppercased, the rest of the run lowercased. -/
def pyTitleAux : List Char → Bool → List Char
  | [], _ => []
  | c :: rest, prevAlpha =>
    (if c.isAlpha then (if prevAlpha then c.toLower else c.toUpper) else c) ::
      pyTitleAux rest c.isAlpha

/-- Python `str.title()` on a whole string. -/
def pyTitle (s : String) : String :=
  ⟨pyTitleAux s.data false⟩

/-- `WeatherAPIClient.fetch_weather`: validates the coordinates, then maps
the HTTP outcome: 200 returns the body, 401/429/5xx/other non-200 raise a
`ClientResponseError` with the statuses and messages of the source. -/
def fetch_weather (lat lon : ℚ) (ev : AttemptEvent) : Except PyExn ApiResponse :=
  if ¬ (-90 ≤ lat ∧ lat ≤ 90) then
    Except.error (PyExn.valueError "Invalid latitude: must be between -90 and 90.")
  else if ¬ (-180 ≤ lon ∧ lon ≤ 180) then
    Except.error (PyExn.valueError "Invalid longitude: must be between -180 and 180.")
  else
    match ev with
    | AttemptEvent.response code reason body =>
      if code = 200 then Except.ok body
      else if code = 401 then
        Except.error (PyExn.clientResponseError 401 "Invalid API key")
      else if code = 429 then
        Except.error (PyExn.clientResponseError 429 "API rate limit exceeded")
      else if 500 ≤ code then
        Except.error (PyExn.clientResponseError code ("Server error: " ++ toString code))
      else
        Except.error (PyExn.clientResponseError code
          ("HTTP " ++ toString code ++ ": " ++ reason))
    | AttemptEvent.connError msg => Except.error (PyExn.clientError msg)
    | AttemptEvent.timeout => Except.error PyExn.timeoutError
    | AttemptEvent.unexpected msg => Except.error (PyExn.unexpectedError msg)

/-- `WeatherAPIClient._parse_weather_response`: requires `main`, a
non-empty `weather` list and `wind`; requires `main.temp` and
`main.humidity`; `weather[0].description` defaults to "Unknown",
`wind.speed` to 0.0; on success builds a SUCCESS record with a
title-cased description.  Failures raise ValueError with the
"Invalid API response format: " prefix added by the surrounding handler. -/
def parse_weather_response (data : ApiResponse) (now : Int) : Except PyExn WeatherData :=
  match data.main with
  | none => Except.error (PyExn.valueError
      "Invalid API response format: Missing 'main' section in API response")
  | some main =>
    match data.weather with
    | none => Except.error (PyExn.valueError
        "Invalid API response format: Missing 'weather' section in API response")
    | some wlist =>
      if wlist.isEmpty then
        Except.error (PyExn.valueError
          "Invalid API response format: Missing 'weather' section in API response")
      else
        match data.wind with
        | none => Except.error (PyExn.valueError
            "Invalid API response format: Missing 'wind' section in API response")
        | some wind =>
          match main.temp with
          | none => Except.error (PyExn.valueError
              "Invalid API response format: Missing temperature in API response")
          | some temp =>
            let description :=
              match wlist.head? with
              | some w => w.description.getD "Unknown"
              | none => "Unknown"
            match main.humidity with
            | none => Except.error (PyExn.valueError
                "Invalid API response format: Missing humidity in API response")
            | some humidity =>
              let wind_speed := wind.speed.getD 0
              Except.ok { temperature := temp,
                          description := pyTitle description,
                          humidity := humidity, wind_speed := wind_speed,
                          timestamp := now, status := WeatherStatus.success,
                          error_message := none, error_type := none }

/-- The exception handlers of `fetch_weather_with_retry`, in source order:
`ClientResponseError` is classified and either re-raised (retryable) or
converted to a NOT_AVAILABLE record; other `ClientError`s and timeouts are
re-raised for tenacity; `ValueError` converts to INVALID_COORDINATES;
anything else converts to UNKNOWN_ERROR. -/
def handle_attempt_exception (e : PyExn) (now : Int) : Except PyExn WeatherData :=
  match e with
  | PyExn.clientResponseError st msg =>
    let cls := classify_http_error st
    if cls.2 then Except.error (PyExn.clientResponseError st msg)
    else Except.ok { temperature := 0, description := "Clima no disponible",
                     humidity := 0, wind_speed := 0, timestamp := now,
                     status := WeatherStatus.not_available,
                     error_message := some ("HTTP " ++ toString st ++ ": " ++ msg),
                     error_type := some cls.1 }
  | PyExn.clientError msg => Except.error (PyExn.clientError msg)
  | PyExn.timeoutError => Except.error PyExn.timeoutError
  | PyExn.valueError msg =>
    Except.ok { temperature := 0, description := "Clima no disponible",
                humidity := 0, wind_speed := 0, timestamp := now,
                status := WeatherStatus.not_available,
                error_message := some ("Invalid data: " ++ msg),
                error_type := some ErrorTypes.invalid_coordinates }
  | PyExn.unexpectedError msg =>
    Except.ok { temperature := 0, description := "Clima no disponible",
                humidity := 0, wind_speed := 0, timestamp := now,
                status := WeatherStatus.not_available,
                error_message := some ("Unexpected error: " ++ msg),
                error_type := some ErrorTypes.unknown_error }
  | PyExn.retryError _ =>
    Except.ok { temperature := 0, description := "Clima no disponible",
                humidity := 0, wind_speed := 0, timestamp := now,
                status := WeatherStatus.not_available,
                error_message := some "Unexpected error: RetryError",
                error_type := some ErrorTypes.unknown_error }

/-- One attempt of `fetch_weather_with_retry`'s body: fetch, parse, and
run the exception handlers on whatever was raised. -/
def fetch_attempt (lat lon : ℚ) (ev : AttemptEvent) (now : Int) :
    Except PyExn WeatherData :=
  match fetch_weather lat lon ev with
  | Except.ok raw =>
    match parse_weather_response raw now with
    | Except.ok wd => Except.ok wd
    | Except.error e => handle_attempt_exception e now
  | Except.error e => handle_attempt_exception e now

/-- tenacity's retry predicate
`retry_if_exception_type((ClientError, TimeoutError, ServerTimeoutError))`;
`ClientResponseError` is a `ClientError` subclass. -/
def is_retryable_exception : PyExn → Bool
  | PyExn.clientResponseError _ _ => true
  | PyExn.clientError _ => true
  | PyExn.timeoutError => true
  | _ => false

/-- tenacity's loop around the body: run an attempt; propagate a
non-matching exception at once; retry a matching one while attempts
remain, and raise `RetryError` around the last exception when
`stop_after_attempt` is hit. -/
def retry_attempts (lat lon : ℚ) (env : Nat → AttemptEvent) (now : Int) :
    Nat → Nat → Except PyExn WeatherData
  | remaining, k =>
    match fetch_attempt lat lon (env k) now with
    | Except.ok d => Except.ok d
    | Except.error e =>
      if is_retryable_exception e then
        match remaining with
        | 0 => Except.error (PyExn.retryError e)
        | r + 1 => retry_attempts lat lon env now r (k + 1)
      else Except.error e

/-- `WeatherAPIClient.fetch_weather_with_retry`: the body under
`@retry(stop=stop_after_attempt(3), ...)` — at most 3 attempts. -/
def fetch_weather_with_retry (lat lon : ℚ) (env : Nat → AttemptEvent) (now : Int) :
    Except PyExn WeatherData :=
  retry_attempts lat lon env now 2 1
/-- Whatever the handlers re-raise is matched by tenacity's retry
predicate: every non-matching exception is converted to a returned
WeatherData instead. -/
theorem handle_attempt_exception_escape (e : PyExn) (now : Int) (e2 : PyExn)
    (h : handle_attempt_exception e now = Except.error e2) :
    is_retryable_exception e2 = true := by
  cases e with
  | clientResponseError st msg =>
    simp only [handle_attempt_exception] at h
    by_cases hc : (classify_http_error st).2 = true
    · rw [if_pos hc] at h
      cases h
      rfl
    · rw [if_neg hc] at h
      cases h
  | clientError msg =>
    simp only [handle_attempt_exception] at h
    cases h
    rfl
  | timeoutError =>
    simp only [handle_attempt_exception] at h
    cases h
    rfl
  | valueError msg =>
    simp only [handle_attempt_exception] at h
    cases h
  | unexpectedError msg =>
    simp only [handle_attempt_exception] at h
    cases h
  | retryError last =>
    simp only [handle_attempt_exception] at h
    cases h

/-- An attempt of the retry body only lets retryable exceptions escape. -/
theorem fetch_attempt_escape (lat lon : ℚ) (ev : AttemptEvent) (now : Int) (e2 : PyExn)
    (h : fetch_attempt lat lon ev now = Except.error e2) :
    is_retryable_exception e2 = true := by
  unfold fetch_attempt at h
  cases hfw : fetch_weather lat lon ev with
  | ok raw =>
    rw [hfw] at h
    have h2 : (match parse_weather_response raw now with
        | Except.ok wd => Except.ok wd
        | Except.error e => handle_attempt_exception e now) = Except.error e2 := h
    cases hp : parse_weather_response raw now with
    | ok wd =>
      rw [hp] at h2
      exact Except.noConfusion h2
    | error pe =>
      rw [hp] at h2
      exact handle_attempt_exception_escape pe now e2 h2
  | error e =>
    rw [hfw] at h
    exact handle_attempt_exception_escape e now e2 h

/-- The retry loop either returns a value or, when attempts are
exhausted on a retryable path, raises RetryError around the last
(retryable) exception. -/
theorem retry_attempts_total_or_retry (lat lon : ℚ) (env : Nat → AttemptEvent)
    (now : Int) :
    ∀ remaining k : Nat,
      (∃ d, retry_attempts lat lon env now remaining k = Except.ok d) ∨
      (∃ e, retry_attempts lat lon env now remaining k =
          Except.error (PyExn.retryError e) ∧ is_retryable_exception e = true) := by
  intro remaining
  induction remaining with
  | zero =>
    intro k
    cases hfa : fetch_attempt lat lon (env k) now with
    | ok d =>
      refine Or.inl ⟨d, ?_⟩
      rw [retry_attempts, hfa]
    | error e =>
      have hr := fetch_attempt_escape lat lon (env k) now e hfa
      refine Or.inr ⟨e, ?_, hr⟩
      rw [retry_attempts, hfa]
      simp [hr]
  | succ r ih =>
    intro k
    cases hfa : fetch_attempt lat lon (env k) now with
    | ok d =>
      refine Or.inl ⟨d, ?_⟩
      rw [retry_attempts, hfa]
    | error e =>
      have hr := fetch_attempt_escape lat lon (env k) now e hfa
      have hstep : retry_attempts lat lon env now (r + 1) k =
          retry_attempts lat lon env now r (k + 1) := by
        rw [retry_attempts, hfa]
        simp [hr]
      rw [hstep]
      exact ih (k + 1)

/-- C2 counterexample: when every attempt answers HTTP 429 (a retryable
failure), `fetch_weather_with_retry` does not return a WeatherData — the
exhausted retry raises RetryError around the final rate-limit exception,
which escapes to the caller. -/
theorem claim_C2_retry_exhaustion_counterexample :
    fetch_weather_with_retry 0 0
        (fun _ => AttemptEvent.response 429 "Too Many Requests" ⟨none, none, none⟩) 0 =
      Except.error (PyExn.retryError
        (PyExn.clientResponseError 429 "API rate limit exceeded")) := by
  rfl

/-- C2 (amended): `fetch_weather_with_retry` either returns a WeatherData
or, when a retryable failure (connection error, timeout, HTTP 429/5xx or
other retryable status) persists through all three attempts, lets
tenacity's RetryError escape to its caller; every non-retryable failure
(non-retryable HTTP statuses, validation and parse errors, unexpected
exceptions) is converted to a returned WeatherData, never re-raised. -/
theorem claim_C2_fetch_weather_with_retry_amended :
    (∀ (lat lon : ℚ) (env : Nat → AttemptEvent) (now : Int),
      (∃ d, fetch_weather_with_retry lat lon env now = Except.ok d) ∨
      (∃ e, fetch_weather_with_retry lat lon env now =
          Except.error (PyExn.retryError e) ∧ is_retryable_exception e = true)) ∧
    (∀ (lat lon : ℚ) (ev : AttemptEvent) (now : Int) (e : PyExn),
      fetch_attempt lat lon ev now = Except.error e →
        is_retryable_exception e = true) :=
  ⟨fun lat lon env now => retry_attempts_total_or_retry lat lon env now 2 1,
   fun lat lon ev now e h => fetch_attempt_escape lat lon ev now e h⟩

/-- Witness for the amended C2: a connection failure is the only kind of
thing an attempt lets escape, and it is retryable. -/
theorem claim_C2_fetch_weather_with_retry_amended_witness :
    is_retryable_exception (PyExn.clientError "Connection refused") = true :=
  claim_C2_fetch_weather_with_retry_amended.2 0 0
    (AttemptEvent.connError "Connection refused") 0
    (PyExn.clientError "Connection refused") (by rfl)
